import Mathlib

/-!
Verification of the numeric core of the liquid-glass library
(src/lib/liquid-glass.umd.js).

Embedding conventions:
* JavaScript numbers are modelled by exact rationals.  The transcendental
  primitives Math.sqrt and the fourth root Math.pow(base, 1/4) are passed as
  explicit function parameters (written sq and sq4 below); theorems either hold
  for every choice of these parameters, or assume only values of the real
  functions at perfect powers (for instance sq 1 = 1), which Rat.sqrt also
  satisfies and which is used for concrete witnesses.
* The per-byte RGBA stores of the rasterizers always write an aligned group of
  four bytes, so a pixel store is modelled as one update of a quadruple at the
  pixel index (the byte index divided by four).
-/

/-- RGBA quadruple of channel values. -/
abbrev Rgba : Type := ℚ × ℚ × ℚ × ℚ

/-- Fourth root used for witnesses: iterated rational square root.  It agrees
with the real fourth root on fourth powers, in particular at 0 and 1. -/
def sqrt4Q (q : ℚ) : ℚ := Rat.sqrt (Rat.sqrt q)

namespace SurfaceEquations

/-- Source line 35: convex_circle profile. -/
def convex_circle (sq : ℚ → ℚ) (x : ℚ) : ℚ := sq (1 - (1 - x) ^ 2)

/-- Source line 36: convex_squircle profile, sq4 standing for the fourth
root Math.pow(base, 1/4). -/
def convex_squircle (sq4 : ℚ → ℚ) (x : ℚ) : ℚ := sq4 (1 - (1 - x) ^ 4)

/-- Source line 37: concave profile. -/
def concave (sq : ℚ → ℚ) (x : ℚ) : ℚ := 1 - sq (1 - x ^ 2)

/-- Source line 41: the smootherstep blend weight used by the lip profile. -/
def smootherstep (x : ℚ) : ℚ := 6 * x ^ 5 - 15 * x ^ 4 + 10 * x ^ 3

/-- Source lines 38-43: the lip profile, blending a horizontally compressed
squircle branch with a reflected, 0.1-shifted concave branch. -/
def lip (sq sq4 : ℚ → ℚ) (x : ℚ) : ℚ :=
  let convex := sq4 (1 - (1 - min (x * 2) 1) ^ 4)
  let concaveBranch := 1 - sq (1 - (1 - x) ^ 2) + 1 / 10
  convex * (1 - smootherstep x) + concaveBranch * smootherstep x

end SurfaceEquations

/-- Spring state, source lines 49-55.  The stiffness and damping constructor
defaults do not affect the verified claims and are omitted. -/
structure Spring where
  value : ℚ
  target : ℚ
  velocity : ℚ
  stiffness : ℚ
  damping : ℚ
  deriving DecidableEq

/-- Source lines 57-59. -/
def Spring.setTarget (s : Spring) (t : ℚ) : Spring := { s with target := t }

/-- Source lines 61-67: one integration step. -/
def Spring.update (s : Spring) (dt : ℚ) : Spring :=
  let force := (s.target - s.value) * s.stiffness
  let dampingForce := s.velocity * s.damping
  let v' := s.velocity + (force - dampingForce) * dt
  { s with velocity := v', value := s.value + v' * dt }

/-- Source lines 69-71. -/
def Spring.isSettled (s : Spring) : Bool :=
  decide (|s.target - s.value| < 1 / 1000) && decide (|s.velocity| < 1 / 1000)

/-- Evaluation of the rational square root at 0. -/
lemma ratSqrt_zero : Rat.sqrt 0 = 0 := by simp [Rat.sqrt]

/-- Evaluation of the rational square root at 1. -/
lemma ratSqrt_one : Rat.sqrt 1 = 1 := by simp [Rat.sqrt]

/-- Evaluation of the witness fourth root at 0. -/
lemma sqrt4Q_zero : sqrt4Q 0 = 0 := by simp [sqrt4Q, ratSqrt_zero]

/-- Evaluation of the witness fourth root at 1. -/
lemma sqrt4Q_one : sqrt4Q 1 = 1 := by simp [sqrt4Q, ratSqrt_one]

/-- C2 counterexample: with the rational square root (which matches the real
square root at the only arguments reached here, namely 0 and 1), the lip
profile at x = 1 evaluates to 1/10 while convex_squircle at x = 1 evaluates
to 1, so the claimed boundary agreement at x = 1 is false. -/
theorem lip_one_ne_convex_squircle_one :
    SurfaceEquations.lip Rat.sqrt sqrt4Q 1 = 1 / 10 ∧
    SurfaceEquations.convex_squircle sqrt4Q 1 = 1 ∧
    SurfaceEquations.lip Rat.sqrt sqrt4Q 1 ≠
      SurfaceEquations.convex_squircle sqrt4Q 1 := by
  have h1 : SurfaceEquations.lip Rat.sqrt sqrt4Q 1 = 1 / 10 := by
    simp [SurfaceEquations.lip, SurfaceEquations.smootherstep, ratSqrt_one]
    norm_num
  have h2 : SurfaceEquations.convex_squircle sqrt4Q 1 = 1 := by
    simp [SurfaceEquations.convex_squircle, sqrt4Q_one]
  refine ⟨h1, h2, by rw [h1, h2]; norm_num⟩

/-- C2 amended: the smootherstep weight is 0 at x = 0 and 1 at x = 1, so lip
selects its convex branch at x = 0 — giving the value 0, which coincides with
concave at x = 0 — while at x = 1 it selects its shifted concave branch and
returns 1/10, which differs from convex_squircle at x = 1 (that value is 1).
The hypotheses record values of the real square and fourth roots at 0 and 1. -/
theorem lip_endpoints_amended (sq sq4 : ℚ → ℚ)
    (hsq1 : sq 1 = 1) (hsq40 : sq4 0 = 0) (hsq41 : sq4 1 = 1) :
    SurfaceEquations.smootherstep 0 = 0 ∧
    SurfaceEquations.smootherstep 1 = 1 ∧
    SurfaceEquations.lip sq sq4 0 = 0 ∧
    SurfaceEquations.lip sq sq4 0 = SurfaceEquations.concave sq 0 ∧
    SurfaceEquations.lip sq sq4 1 = 1 / 10 ∧
    SurfaceEquations.lip sq sq4 1 ≠ SurfaceEquations.convex_squircle sq4 1 := by
  constructor
  · norm_num [SurfaceEquations.smootherstep]
  constructor
  · norm_num [SurfaceEquations.smootherstep]
  refine ⟨?_, ?_, ?_, ?_⟩ <;>
    simp [SurfaceEquations.lip, SurfaceEquations.concave,
      SurfaceEquations.convex_squircle, SurfaceEquations.smootherstep,
      hsq1, hsq40, hsq41] <;> norm_num

/-- C2 amended, witness at the rational square root instantiation. -/
theorem lip_endpoints_amended_witness :
    SurfaceEquations.lip Rat.sqrt sqrt4Q 0 = 0 ∧
    SurfaceEquations.lip Rat.sqrt sqrt4Q 1 = 1 / 10 :=
  ⟨(lip_endpoints_amended Rat.sqrt sqrt4Q ratSqrt_one sqrt4Q_zero
      sqrt4Q_one).2.2.1,
   (lip_endpoints_amended Rat.sqrt sqrt4Q ratSqrt_one sqrt4Q_zero
      sqrt4Q_one).2.2.2.2.1⟩

/-- C7: one spring step computes the force stiffness times (target minus
value) minus damping times velocity, integrates velocity first and then uses
the new velocity for the position (semi-implicit Euler, unit mass); isSettled
holds exactly when both the position error and the velocity are below 1e-3 in
absolute value; and a step with dt = 0 changes nothing. -/
theorem spring_update_spec (s : Spring) (dt : ℚ) :
    (s.update dt).velocity =
      s.velocity + (s.stiffness * (s.target - s.value) - s.damping * s.velocity) * dt ∧
    (s.update dt).value = s.value + (s.update dt).velocity * dt ∧
    (s.update dt).target = s.target ∧
    (s.isSettled = true ↔ |s.target - s.value| < 1 / 1000 ∧ |s.velocity| < 1 / 1000) ∧
    s.update 0 = s := by
  refine ⟨?_, rfl, rfl, ?_, ?_⟩
  · simp only [Spring.update]; ring
  · simp [Spring.isSettled]
  · cases s; simp [Spring.update]

/-- Source line 314: sample coordinate of the 1D solver, x = i / samples. -/
def solverSampleX (samples i : ℕ) : ℚ := (i : ℚ) / (samples : ℚ)

/-- Source line 316: finite-difference step, positive below x = 1 and negative
at or above it. -/
def solverDx (x : ℚ) : ℚ := if x < 1 then 1 / 10000 else -(1 / 10000)

/-- Source line 317: clamp of the perturbed coordinate,
Math.max(0, Math.min(1, q)). -/
def clamp01 (q : ℚ) : ℚ := max 0 (min 1 q)

/-- Source lines 316-318: one-sided finite-difference derivative estimate. -/
def sampleDerivative (fn : ℚ → ℚ) (x : ℚ) : ℚ :=
  (fn (clamp01 (x + solverDx x)) - fn x) / solverDx x

/-- Source lines 319-320: inward unit normal derived from the tangent. -/
def sampleNormal (sq : ℚ → ℚ) (fn : ℚ → ℚ) (x : ℚ) : ℚ × ℚ :=
  let derivative := sampleDerivative fn x
  let magnitude := sq (derivative * derivative + 1)
  (-derivative / magnitude, -1 / magnitude)

/-- Source line 303: refraction discriminant k = 1 - eta^2 (1 - dot^2). -/
def refractK (eta dot : ℚ) : ℚ := 1 - eta * eta * (1 - dot * dot)

/-- Source lines 301-310: vector refraction; none models the null returned
under total internal reflection. -/
def refractDir (sq : ℚ → ℚ) (eta nx ny : ℚ) : Option (ℚ × ℚ) :=
  let dot := ny
  let k := refractK eta dot
  if k < 0 then none
  else some (-(eta * dot + sq k) * nx, eta - (eta * dot + sq k) * ny)

/-- Source lines 323-329: the null check on the refracted direction, pushing 0
under total internal reflection and the projected displacement otherwise. -/
def projectEntry (y bezelWidth glassThickness : ℚ) (r : Option (ℚ × ℚ)) : ℚ :=
  match r with
  | none => 0
  | some refracted =>
      let remainingHeightOnBezel := y * bezelWidth
      let remainingHeight := remainingHeightOnBezel + glassThickness
      refracted.1 * (remainingHeight / refracted.2)

/-- Source lines 313-330: the table entry for sample i out of N. -/
def refractionEntry (sq fn : ℚ → ℚ) (refractiveIndex bezelWidth glassThickness : ℚ)
    (N i : ℕ) : ℚ :=
  let eta := 1 / refractiveIndex
  let x := solverSampleX N i
  let y := fn x
  let normal := sampleNormal sq fn x
  projectEntry y bezelWidth glassThickness (refractDir sq eta normal.1 normal.2)

/-- Source lines 297-332: the 1D solver _calculateDisplacementMap1D.  The
JavaScript default idiom (samples or 128) replaces a zero sample count by
128. -/
def computeRefractionTable (sq fn : ℚ → ℚ)
    (refractiveIndex bezelWidth glassThickness : ℚ) (samples : ℕ) : List ℚ :=
  let N := if samples = 0 then 128 else samples
  (List.range N).map (refractionEntry sq fn refractiveIndex bezelWidth glassThickness N)

/-- Length of the produced table, including the defaulting of 0 to 128. -/
lemma computeRefractionTable_length (sq fn : ℚ → ℚ) (n b g : ℚ) (samples : ℕ) :
    (computeRefractionTable sq fn n b g samples).length =
      if samples = 0 then 128 else samples := by
  simp [computeRefractionTable]

/-- Shape of one solver entry: the match on the optional refracted direction
equals the conditional projection formula of the claim. -/
lemma entry_projection_formula (sq : ℚ → ℚ) (eta y b g nx ny : ℚ) :
    projectEntry y b g (refractDir sq eta nx ny) =
      (if refractK eta ny < 0 then 0
       else
         (-(eta * ny + sq (refractK eta ny)) * nx) *
           (y * b + g) / (eta - (eta * ny + sq (refractK eta ny)) * ny)) := by
  rw [refractDir]
  by_cases hk : refractK eta ny < 0
  · simp [hk, projectEntry]
  · simp only [hk, if_false]
    simp only [projectEntry]
    rw [mul_div_assoc]

/-- C3 counterexample: called with sample count 0, the solver falls back to
the default of 128 samples and returns 128 entries, not 0, so the claimed
exact-length property fails at N = 0. -/
theorem refractionTable_zero_samples_length :
    (computeRefractionTable Rat.sqrt (fun _ => 0) (3 / 2) 30 150 0).length = 128 ∧
    (computeRefractionTable Rat.sqrt (fun _ => 0) (3 / 2) 30 150 0).length ≠ 0 := by
  rw [computeRefractionTable_length]
  norm_num

/-- C3 amended: for every square-root model, profile, refractive index, bezel
width, glass thickness, and positive sample count N, the table has exactly N
entries and the entry at sample i (with x = i/N and y = profile x) is 0 when
the discriminant k = 1 - eta^2 (1 - dot^2) is negative (total internal
reflection, dot being the vertical component of the unit normal), and is
otherwise refractedX * (y * bezelWidth + glassThickness) / refractedY; the
embedding is a pure function of these inputs, so determinism is definitional. -/
theorem refractionTable_length_and_entries (sq fn : ℚ → ℚ) (n b g : ℚ)
    (N : ℕ) (hN : 1 ≤ N) :
    (computeRefractionTable sq fn n b g N).length = N ∧
    ∀ i : ℕ, i < N →
      (computeRefractionTable sq fn n b g N).getD i 0 =
        (let eta := 1 / n
         let x := solverSampleX N i
         let y := fn x
         let dot := (sampleNormal sq fn x).2
         if refractK eta dot < 0 then 0
         else
           (-(eta * dot + sq (refractK eta dot)) * (sampleNormal sq fn x).1) *
             (y * b + g) / (eta - (eta * dot + sq (refractK eta dot)) * dot)) := by
  have hN0 : N ≠ 0 := by omega
  have htab : computeRefractionTable sq fn n b g N =
      (List.range N).map (refractionEntry sq fn n b g N) := by
    simp [computeRefractionTable, hN0]
  constructor
  · rw [computeRefractionTable_length]; simp [hN0]
  · intro i hi
    have hget : (computeRefractionTable sq fn n b g N).getD i 0 =
        refractionEntry sq fn n b g N i := by
      rw [htab, List.getD_eq_getElem?_getD]
      simp [List.getElem?_range, hi]
    rw [hget]
    simp only [refractionEntry]
    exact entry_projection_formula sq (1 / n) (fn (solverSampleX N i)) b g
      (sampleNormal sq fn (solverSampleX N i)).1
      (sampleNormal sq fn (solverSampleX N i)).2

/-- C3 amended, witness: two samples at refractive index 3/2, the identity
profile, bezel width 30 and thickness 150; the theorem instance yields a
table of length 2. -/
theorem refractionTable_length_and_entries_witness :
    (computeRefractionTable Rat.sqrt (fun x => x) (3 / 2) 30 150 2).length = 2 :=
  (refractionTable_length_and_entries Rat.sqrt (fun x => x) (3 / 2) 30 150 2
    (by norm_num)).1

/-- C10: for a positive sample count every sample coordinate i/N lies strictly
below 1, hence the finite-difference step chosen by the solver is the positive
one, and the clamped perturbed coordinate stays inside the unit interval. -/
theorem solver_sample_in_domain (N i : ℕ) (hN : 1 ≤ N) (hi : i < N) :
    solverSampleX N i < 1 ∧
    solverDx (solverSampleX N i) = 1 / 10000 ∧
    0 ≤ clamp01 (solverSampleX N i + solverDx (solverSampleX N i)) ∧
    clamp01 (solverSampleX N i + solverDx (solverSampleX N i)) ≤ 1 := by
  have hNQ : (0 : ℚ) < (N : ℚ) := by exact_mod_cast (by omega : 0 < N)
  have hx : solverSampleX N i < 1 := by
    rw [solverSampleX, div_lt_one hNQ]
    exact_mod_cast hi
  refine ⟨hx, by simp [solverDx, hx], le_max_left _ _, ?_⟩
  simp [clamp01]

/-- C10 witness at N = 2, i = 1. -/
theorem solver_sample_in_domain_witness :
    solverSampleX 2 1 < 1 ∧ solverDx (solverSampleX 2 1) = 1 / 10000 :=
  ⟨(solver_sample_in_domain 2 1 (by norm_num) (by norm_num)).1,
   (solver_sample_in_domain 2 1 (by norm_num) (by norm_num)).2.1⟩

/-- Events of the setOptions / _updateFilter pipeline, source lines 737-742
and 449-500: option merging, entry into the 1D solver, entry into the 2D
rasterizer, a reported configuration error, and a thrown TypeError. -/
inductive SetOptionsEvent where
  | optionsMerged
  | solver1DStarted
  | rasterizer2DStarted
  | configError
  | typeError
  deriving DecidableEq

/-- Source line 453: property lookup SurfaceEquations[surfaceType] over the
own properties of the profile table; an unrecognized name yields undefined,
modelled as none. -/
def lookupSurface (sq sq4 : ℚ → ℚ) (name : String) : Option (ℚ → ℚ) :=
  if name = "convex_circle" then some (SurfaceEquations.convex_circle sq)
  else if name = "convex_squircle" then some (SurfaceEquations.convex_squircle sq4)
  else if name = "concave" then some (SurfaceEquations.concave sq)
  else if name = "lip" then some (SurfaceEquations.lip sq sq4)
  else none

/-- Source lines 297-332 called with a possibly missing profile: samples
defaults to 128 so the loop body runs, and its first action evaluates the
profile at sample 0 (line 315); an absent profile therefore raises a TypeError
inside the solver before any entry is produced, while a present profile
yields the whole table. -/
def solver1DRun (sq : ℚ → ℚ) (fnOpt : Option (ℚ → ℚ)) (n b g : ℚ) :
    Except Unit (List ℚ) :=
  match fnOpt with
  | none => Except.error ()
  | some fn => Except.ok (computeRefractionTable sq fn n b g 0)

/-- Source lines 449-473: _updateFilter starts the 1D solver with the looked
up profile; on success it proceeds to the 2D rasterizer, and a TypeError
aborts the rebuild with no further event.  No validation event exists. -/
def updateFilterEvents (sq : ℚ → ℚ) (fnOpt : Option (ℚ → ℚ)) (n b g : ℚ) :
    List SetOptionsEvent :=
  match solver1DRun sq fnOpt n b g with
  | Except.error _ => [SetOptionsEvent.solver1DStarted, SetOptionsEvent.typeError]
  | Except.ok _ =>
      [SetOptionsEvent.solver1DStarted, SetOptionsEvent.rasterizer2DStarted]

/-- Source lines 737-742: setOptions merges the new options unconditionally
and immediately rebuilds the filter. -/
def setOptionsEvents (sq sq4 : ℚ → ℚ) (n b g : ℚ) (name : String) :
    List SetOptionsEvent :=
  SetOptionsEvent.optionsMerged :: updateFilterEvents sq (lookupSurface sq sq4 name) n b g

/-- Marker for events that begin rasterization work. -/
def isRasterizationStart : SetOptionsEvent → Bool
  | SetOptionsEvent.solver1DStarted => true
  | SetOptionsEvent.rasterizer2DStarted => true
  | _ => false

/-- Formalization of the C1 claim on a trace: a configuration error is
reported, and only non-rasterization events precede it. -/
def reportsConfigErrorBeforeRasterization (tr : List SetOptionsEvent) : Prop :=
  ∃ pre post, tr = pre ++ SetOptionsEvent.configError :: post ∧
    ∀ e ∈ pre, isRasterizationStart e = false

/-- C1 counterexample: with the unrecognized surface type named bogus and the
default numeric options, the option-set trace enters the 1D solver and dies
there with a TypeError; no configuration error is reported at all, so none is
reported before rasterization. -/
theorem setOptions_unrecognized_no_configError :
    setOptionsEvents Rat.sqrt sqrt4Q (3 / 2) 30 150 "bogus" =
      [SetOptionsEvent.optionsMerged, SetOptionsEvent.solver1DStarted,
        SetOptionsEvent.typeError] ∧
    ¬ reportsConfigErrorBeforeRasterization
        (setOptionsEvents Rat.sqrt sqrt4Q (3 / 2) 30 150 "bogus") := by
  have h : setOptionsEvents Rat.sqrt sqrt4Q (3 / 2) 30 150 "bogus" =
      [SetOptionsEvent.optionsMerged, SetOptionsEvent.solver1DStarted,
        SetOptionsEvent.typeError] := by
    simp [setOptionsEvents, updateFilterEvents, solver1DRun, lookupSurface]
  refine ⟨h, ?_⟩
  rintro ⟨pre, post, heq, -⟩
  have hmem : SetOptionsEvent.configError ∈
      setOptionsEvents Rat.sqrt sqrt4Q (3 / 2) 30 150 "bogus" := by
    rw [heq]
    exact List.mem_append.2 (Or.inr (List.mem_cons_self _ _))
  rw [h] at hmem
  simp at hmem

/-- C1 amended: setOptions performs no validation of surfaceType; for any
option set whose surfaceType resolves to no profile, the rebuild attempts the
1D solver and the failure is a TypeError raised inside it at the first sample
evaluation, after rasterization has started, with no configuration error
reported beforehand. -/
theorem setOptions_unrecognized_fails_in_solver (sq sq4 : ℚ → ℚ) (n b g : ℚ)
    (name : String) (h : lookupSurface sq sq4 name = none) :
    setOptionsEvents sq sq4 n b g name =
      [SetOptionsEvent.optionsMerged, SetOptionsEvent.solver1DStarted,
        SetOptionsEvent.typeError] := by
  simp [setOptionsEvents, updateFilterEvents, solver1DRun, h]

/-- C1 amended, witness at the name bogus and the default numeric options. -/
theorem setOptions_unrecognized_fails_in_solver_witness :
    setOptionsEvents Rat.sqrt sqrt4Q (3 / 2) 30 150 "bogus" =
      [SetOptionsEvent.optionsMerged, SetOptionsEvent.solver1DStarted,
        SetOptionsEvent.typeError] :=
  setOptions_unrecognized_fails_in_solver Rat.sqrt sqrt4Q (3 / 2) 30 150 "bogus"
    (by simp [lookupSurface])

/-- Source line 462: Math.max over the absolute values of the table entries.
The fold starts from 0, which agrees with Math.max on every nonempty list of
absolute values because those are all nonnegative. -/
def maximumDisplacementOf (table : List ℚ) : ℚ :=
  (table.map (fun e => |e|)).foldl max 0

/-- Source line 471: the JavaScript idiom m || 1, substituting 1 exactly when
the (nonnegative, non-NaN) maximum is 0. -/
def orOne (m : ℚ) : ℚ := if m = 0 then 1 else m

/-- Source lines 462-471: the divisor handed by _updateFilter to the 2D
displacement rasterizer. -/
def updateFilterDivisor (table : List ℚ) : ℚ := orOne (maximumDisplacementOf table)

/-- Lower bounds of a left max fold: the seed and every member are below it. -/
lemma foldl_max_bounds (l : List ℚ) (a : ℚ) :
    a ≤ l.foldl max a ∧ ∀ x ∈ l, x ≤ l.foldl max a := by
  induction l generalizing a with
  | nil => exact ⟨le_refl _, by simp⟩
  | cons h t ih =>
      refine ⟨le_trans (le_max_left a h) (ih (max a h)).1, ?_⟩
      intro x hx
      rcases List.mem_cons.1 hx with rfl | hxt
      · exact le_trans (le_max_right a x) (ih (max a x)).1
      · exact (ih (max a h)).2 x hxt

/-- A left max fold returns its seed or a member of the list. -/
lemma foldl_max_mem (l : List ℚ) (a : ℚ) :
    l.foldl max a = a ∨ l.foldl max a ∈ l := by
  induction l generalizing a with
  | nil => exact Or.inl rfl
  | cons h t ih =>
      rcases ih (max a h) with heq | hmem
      · rcases max_choice a h with hc | hc
        · left; rw [List.foldl_cons, heq, hc]
        · right; rw [List.foldl_cons, heq, hc]; exact List.mem_cons_self _ _
      · right; rw [List.foldl_cons]; exact List.mem_cons_of_mem _ hmem

/-- C4: for every nonempty refraction table, the derived maximum equals the
greatest absolute entry (it bounds all entries and is attained by one), the
substitution puts 1 in place of a zero maximum, and the divisor handed to
the 2D rasterizer is strictly positive, so the normalization division never
divides by zero (the rasterizer additionally guards it behind a strict
positivity test, source line 377). -/
theorem maximumDisplacement_spec (table : List ℚ) (hne : table ≠ []) :
    (∀ e ∈ table, |e| ≤ maximumDisplacementOf table) ∧
    (∃ e ∈ table, maximumDisplacementOf table = |e|) ∧
    (maximumDisplacementOf table = 0 → updateFilterDivisor table = 1) ∧
    0 < updateFilterDivisor table := by
  have hbound : ∀ e ∈ table, |e| ≤ maximumDisplacementOf table := by
    intro e he
    exact (foldl_max_bounds (table.map (fun e => |e|)) 0).2 _
      (List.mem_map.2 ⟨e, he, rfl⟩)
  have hnonneg : 0 ≤ maximumDisplacementOf table :=
    (foldl_max_bounds (table.map (fun e => |e|)) 0).1
  have hattain : ∃ e ∈ table, maximumDisplacementOf table = |e| := by
    rcases foldl_max_mem (table.map (fun e => |e|)) 0 with hz | hmem
    · rcases List.exists_mem_of_ne_nil table hne with ⟨e, he⟩
      refine ⟨e, he, ?_⟩
      have h1 := hbound e he
      have h0 : maximumDisplacementOf table = 0 := hz
      rw [h0] at h1 ⊢
      exact (le_antisymm h1 (abs_nonneg e)).symm
    · rcases List.mem_map.1 hmem with ⟨e, he, heq⟩
      exact ⟨e, he, heq.symm⟩
  refine ⟨hbound, hattain, ?_, ?_⟩
  · intro hz
    simp [updateFilterDivisor, orOne, hz]
  · by_cases hz : maximumDisplacementOf table = 0
    · simp [updateFilterDivisor, orOne, hz]
    · have : 0 < maximumDisplacementOf table := lt_of_le_of_ne hnonneg (Ne.symm hz)
      simpa [updateFilterDivisor, orOne, hz] using this

/-- C4 witness at the concrete table with entries 0 and -3. -/
theorem maximumDisplacement_spec_witness :
    0 < updateFilterDivisor [0, -3] :=
  (maximumDisplacement_spec [0, -3] (by simp)).2.2.2

/-- Model of an ImageData buffer.  The underlying byte array is addressed here
by pixel index (byte index divided by 4); both rasterizers only ever write an
aligned RGBA quadruple, so the grouping is exact.  The index is rational
because the displacement rasterizer offsets it by (canvasWidth - objectWidth)/2
which JavaScript computes without rounding. -/
structure ImageDataQ where
  width : ℕ
  height : ℕ
  data : ℚ → Rgba

/-- Read the RGBA quadruple of the pixel at column px, row py. -/
def ImageDataQ.pixel (img : ImageDataQ) (px py : ℕ) : Rgba :=
  img.data ((py * img.width + px : ℕ) : ℚ)

/-- One indexed store into the modelled byte array. -/
def storePixel (d : ℚ → Rgba) (i : ℚ) (v : Rgba) : ℚ → Rgba :=
  fun j => if j = i then v else d j

/-- The common double loop of both rasterizers: fold the per-pixel optional
write over row-major (y1, x1) pairs, storing at the index computed by wIdx. -/
def rasterFold (f : ℕ → ℕ → Option Rgba) (wIdx : ℕ → ℕ → ℚ)
    (pairs : List (ℕ × ℕ)) (d : ℚ → Rgba) : ℚ → Rgba :=
  pairs.foldl (fun acc yx =>
    match f yx.2 yx.1 with
    | some v => storePixel acc (wIdx yx.1 yx.2) v
    | none => acc) d

/-- Unfolding of the raster fold over a cons cell. -/
lemma rasterFold_cons (f : ℕ → ℕ → Option Rgba) (wIdx : ℕ → ℕ → ℚ)
    (a : ℕ × ℕ) (t : List (ℕ × ℕ)) (d : ℚ → Rgba) :
    rasterFold f wIdx (a :: t) d =
      rasterFold f wIdx t
        (match f a.2 a.1 with
         | some v => storePixel d (wIdx a.1 a.2) v
         | none => d) := rfl

/-- A raster fold leaves every index untouched by its writes at the initial
value. -/
lemma rasterFold_no_write (f : ℕ → ℕ → Option Rgba) (wIdx : ℕ → ℕ → ℚ)
    (pairs : List (ℕ × ℕ)) (d : ℚ → Rgba) (q : ℚ)
    (h : ∀ yx ∈ pairs, ∀ v, f yx.2 yx.1 = some v → wIdx yx.1 yx.2 ≠ q) :
    rasterFold f wIdx pairs d q = d q := by
  induction pairs generalizing d with
  | nil => rfl
  | cons a t ih =>
      rw [rasterFold_cons]
      cases hf : f a.2 a.1 with
      | none =>
          simp only [hf]
          exact ih d fun yx hyx => h yx (List.mem_cons_of_mem _ hyx)
      | some v =>
          simp only [hf]
          rw [ih _ fun yx hyx => h yx (List.mem_cons_of_mem _ hyx)]
          have hne := h a (List.mem_cons_self _ _) v hf
          simp only [storePixel]
          exact if_neg fun hq => hne hq.symm

/-- A raster fold returns, at an index with a unique writer among the pairs,
exactly the value that writer stores. -/
lemma rasterFold_writer (f : ℕ → ℕ → Option Rgba) (wIdx : ℕ → ℕ → ℚ)
    (pairs : List (ℕ × ℕ)) (d : ℚ → Rgba) (q : ℚ) (a : ℕ × ℕ) (v : Rgba)
    (ha : a ∈ pairs) (hnd : pairs.Nodup)
    (huniq : ∀ b ∈ pairs, wIdx b.1 b.2 = q → b = a)
    (hv : f a.2 a.1 = some v) (hq : wIdx a.1 a.2 = q) :
    rasterFold f wIdx pairs d q = v := by
  obtain ⟨l1, l2, rfl⟩ := List.append_of_mem ha
  have happ : rasterFold f wIdx (l1 ++ a :: l2) d =
      rasterFold f wIdx (a :: l2) (rasterFold f wIdx l1 d) := by
    simp [rasterFold, List.foldl_append]
  rw [happ, rasterFold_cons]
  simp only [hv]
  have ha2 : a ∉ l2 :=
    (List.nodup_cons.1 (List.Nodup.of_append_right hnd)).1
  have hmiss : ∀ yx ∈ l2, ∀ w, f yx.2 yx.1 = some w → wIdx yx.1 yx.2 ≠ q := by
    intro b hb w hw hbq
    have hbmem : b ∈ l1 ++ a :: l2 :=
      List.mem_append.2 (Or.inr (List.mem_cons_of_mem _ hb))
    have hba := huniq b hbmem hbq
    exact ha2 (hba ▸ hb)
  rw [rasterFold_no_write f wIdx l2 _ q hmiss, hq]
  simp [storePixel]

/-- Uniqueness of the row/column decomposition of a row-major index. -/
lemma rowcol_unique {W r1 c1 r2 c2 : ℕ} (hc1 : c1 < W) (hc2 : c2 < W)
    (h : r1 * W + c1 = r2 * W + c2) : r1 = r2 ∧ c1 = c2 := by
  have hm : c1 = c2 := by
    have h1 : (r1 * W + c1) % W = c1 := by
      rw [Nat.mul_comm, Nat.mul_add_mod]
      exact Nat.mod_eq_of_lt hc1
    have h2 : (r2 * W + c2) % W = c2 := by
      rw [Nat.mul_comm, Nat.mul_add_mod]
      exact Nat.mod_eq_of_lt hc2
    rw [← h1, ← h2, h]
  refine ⟨?_, hm⟩
  have hW : 0 < W := Nat.lt_of_le_of_lt (Nat.zero_le _) hc1
  have : r1 * W = r2 * W := by omega
  exact Nat.eq_of_mul_eq_mul_right hW this

/-- Source lines 355-361 and 404-410: fold a pixel of the object region into
its corner-local offset; flat-edge pixels get offset 0 along the axis parallel
to the edge. -/
def cornerOffset (objectWidth objectHeight : ℕ) (radius : ℚ) (x1 y1 : ℕ) : ℚ × ℚ :=
  let widthBetweenRadiuses : ℚ := (objectWidth : ℚ) - radius * 2
  let heightBetweenRadiuses : ℚ := (objectHeight : ℚ) - radius * 2
  let x : ℚ :=
    if (x1 : ℚ) < radius then (x1 : ℚ) - radius
    else if (x1 : ℚ) ≥ (objectWidth : ℚ) - radius then
      (x1 : ℚ) - radius - widthBetweenRadiuses
    else 0
  let y : ℚ :=
    if (y1 : ℚ) < radius then (y1 : ℚ) - radius
    else if (y1 : ℚ) ≥ (objectHeight : ℚ) - radius then
      (y1 : ℚ) - radius - heightBetweenRadiuses
    else 0
  (x, y)

/-- Source line 380 and the analogous clamps: Math.max(0, Math.min(255, v)). -/
def clampByte (v : ℚ) : ℚ := max 0 (min 255 v)

/-- Source line 376: clamped table lookup with the or-zero fallback.  The
lookup index is clamped into the valid bounds; on an empty table the fallback
0 of the JavaScript expression applies, modelled by the 0 default. -/
def jsTableLookup (m : List ℚ) (i : ℤ) : ℚ :=
  let j := max 0 (min i ((m.length : ℤ) - 1))
  m.getD j.toNat 0

/-- Parameters of _calculateDisplacementMap2D, source line 334. -/
structure DispParams where
  canvasWidth : ℕ
  canvasHeight : ℕ
  objectWidth : ℕ
  objectHeight : ℕ
  radius : ℚ
  bezelWidth : ℚ
  maximumDisplacement : ℚ
  precomputedMap : List ℚ

/-- Source lines 355-384: the body of the displacement loop for object pixel
(x1, y1): none when the pixel fails the bezel ring test, and the stored RGBA
quadruple otherwise. -/
def dispPixelWrite (sq : ℚ → ℚ) (p : DispParams) (x1 y1 : ℕ) : Option Rgba :=
  let xy := cornerOffset p.objectWidth p.objectHeight p.radius x1 y1
  let x := xy.1
  let y := xy.2
  let radiusSquared := p.radius * p.radius
  let radiusPlusOneSquared := (p.radius + 1) * (p.radius + 1)
  let radiusMinusBezelSquared :=
    max 0 ((p.radius - p.bezelWidth) * (p.radius - p.bezelWidth))
  let distanceToCenterSquared := x * x + y * y
  if distanceToCenterSquared ≤ radiusPlusOneSquared ∧
      distanceToCenterSquared ≥ radiusMinusBezelSquared then
    let opacity :=
      if distanceToCenterSquared < radiusSquared then 1
      else 1 - (sq distanceToCenterSquared - sq radiusSquared) /
        (sq radiusPlusOneSquared - sq radiusSquared)
    let distanceFromCenter := sq distanceToCenterSquared
    let distanceFromSide := p.radius - distanceFromCenter
    let cosv := if distanceFromCenter > 0 then x / distanceFromCenter else 0
    let sinv := if distanceFromCenter > 0 then y / distanceFromCenter else 0
    let bezelRatio := max 0 (min 1 (distanceFromSide / p.bezelWidth))
    let bezelIndex := ⌊bezelRatio * (p.precomputedMap.length : ℚ)⌋
    let distance := jsTableLookup p.precomputedMap bezelIndex
    let dX := if p.maximumDisplacement > 0 then
      (-cosv * distance) / p.maximumDisplacement else 0
    let dY := if p.maximumDisplacement > 0 then
      (-sinv * distance) / p.maximumDisplacement else 0
    some (clampByte (128 + dX * 127 * opacity),
      clampByte (128 + dY * 127 * opacity), 0, 255)
  else none

/-- Source lines 334-388: the displacement rasterizer.  Every pixel starts at
the neutral sentinel (128, 128, 0, 255) and the double loop over the object
region stores the bezel writes at the centered offsets. -/
def calculateDisplacementMap2D (sq : ℚ → ℚ) (p : DispParams) : ImageDataQ :=
  let objectX : ℚ := ((p.canvasWidth : ℚ) - (p.objectWidth : ℚ)) / 2
  let objectY : ℚ := ((p.canvasHeight : ℚ) - (p.objectHeight : ℚ)) / 2
  { width := p.canvasWidth
    height := p.canvasHeight
    data := rasterFold (dispPixelWrite sq p)
      (fun y1 x1 => (objectY + (y1 : ℚ)) * (p.canvasWidth : ℚ) + objectX + (x1 : ℚ))
      ((List.range p.objectHeight) ×ˢ (List.range p.objectWidth))
      (fun _ => (128, 128, 0, 255)) }

/-- Membership of the canvas pixel (px, py) in the centered object region,
with the centering offsets as whole pixels. -/
def inObjectRegion (p : DispParams) (px py : ℕ) : Prop :=
  let bx := (p.canvasWidth - p.objectWidth) / 2
  let cy := (p.canvasHeight - p.objectHeight) / 2
  bx ≤ px ∧ px < bx + p.objectWidth ∧ cy ≤ py ∧ py < cy + p.objectHeight

instance (p : DispParams) (px py : ℕ) : Decidable (inObjectRegion p px py) := by
  unfold inObjectRegion
  infer_instance

/-- C5: the displacement buffer has exactly the requested canvas dimensions,
and every canvas pixel that is outside the centered object region, or whose
corner-local squared distance fails the bezel ring test (the pixel write of
the loop body is none), holds the untouched neutral sentinel (128, 128, 0,
255).  The geometry hypotheses state that the object fits into the canvas and
is centered at whole pixels, the well-formedness the data model requires of a
Geometry value. -/
theorem displacementMap2D_sentinel (sq : ℚ → ℚ) (p : DispParams)
    (hw : p.objectWidth ≤ p.canvasWidth) (hh : p.objectHeight ≤ p.canvasHeight)
    (hew : (p.canvasWidth - p.objectWidth) % 2 = 0)
    (heh : (p.canvasHeight - p.objectHeight) % 2 = 0)
    (px py : ℕ) (hpx : px < p.canvasWidth) (hpy : py < p.canvasHeight)
    (hout : ¬ inObjectRegion p px py ∨
      dispPixelWrite sq p (px - (p.canvasWidth - p.objectWidth) / 2)
        (py - (p.canvasHeight - p.objectHeight) / 2) = none) :
    (calculateDisplacementMap2D sq p).width = p.canvasWidth ∧
    (calculateDisplacementMap2D sq p).height = p.canvasHeight ∧
    (calculateDisplacementMap2D sq p).pixel px py = (128, 128, 0, 255) := by
  refine ⟨rfl, rfl, ?_⟩
  set bx := (p.canvasWidth - p.objectWidth) / 2 with hbx
  set cy := (p.canvasHeight - p.objectHeight) / 2 with hcy
  have hbxq : ((p.canvasWidth : ℚ) - (p.objectWidth : ℚ)) / 2 = (bx : ℚ) := by
    have hdvd : 2 ∣ (p.canvasWidth - p.objectWidth) := Nat.dvd_of_mod_eq_zero hew
    have h2 := congrArg (fun n : ℕ => (n : ℚ)) (Nat.div_mul_cancel hdvd)
    push_cast at h2
    rw [Nat.cast_sub hw] at h2
    rw [hbx]
    linarith
  have hcyq : ((p.canvasHeight : ℚ) - (p.objectHeight : ℚ)) / 2 = (cy : ℚ) := by
    have hdvd : 2 ∣ (p.canvasHeight - p.objectHeight) := Nat.dvd_of_mod_eq_zero heh
    have h2 := congrArg (fun n : ℕ => (n : ℚ)) (Nat.div_mul_cancel hdvd)
    push_cast at h2
    rw [Nat.cast_sub hh] at h2
    rw [hcy]
    linarith
  have hpix : (calculateDisplacementMap2D sq p).pixel px py =
      rasterFold (dispPixelWrite sq p)
        (fun y1 x1 =>
          (((p.canvasHeight : ℚ) - (p.objectHeight : ℚ)) / 2 + (y1 : ℚ)) *
              (p.canvasWidth : ℚ) +
            ((p.canvasWidth : ℚ) - (p.objectWidth : ℚ)) / 2 + (x1 : ℚ))
        ((List.range p.objectHeight) ×ˢ (List.range p.objectWidth))
        (fun _ => (128, 128, 0, 255)) ((py * p.canvasWidth + px : ℕ) : ℚ) := rfl
  rw [hpix]
  apply rasterFold_no_write
  rintro ⟨y1, x1⟩ hmem v hv heq
  rw [List.mem_product, List.mem_range, List.mem_range] at hmem
  obtain ⟨hy1, hx1⟩ := hmem
  simp only at hv heq
  rw [hcyq, hbxq] at heq
  have hcast : (((cy + y1) * p.canvasWidth + (bx + x1) : ℕ) : ℚ) =
      ((py * p.canvasWidth + px : ℕ) : ℚ) := by
    push_cast
    push_cast at heq
    linarith
  have hnat : (cy + y1) * p.canvasWidth + (bx + x1) = py * p.canvasWidth + px :=
    Nat.cast_inj.1 hcast
  have hbxle : bx ≤ p.canvasWidth - p.objectWidth := Nat.div_le_self _ _
  have hcolb : bx + x1 < p.canvasWidth := by omega
  obtain ⟨hrow, hcol⟩ := rowcol_unique hcolb hpx hnat
  rcases hout with hreg | hnone
  · exact hreg (by simp only [inObjectRegion]; omega)
  · have hx1e : px - bx = x1 := by omega
    have hy1e : py - cy = y1 := by omega
    rw [hx1e, hy1e] at hnone
    rw [hnone] at hv
    exact Option.noConfusion hv

/-- C5 witness: a 4 by 4 canvas with a centered 2 by 2 object; the pixel at
(0, 0) lies outside the object region and holds the sentinel. -/
theorem displacementMap2D_sentinel_witness :
    (calculateDisplacementMap2D Rat.sqrt
        ⟨4, 4, 2, 2, 0, 0, 1, [0]⟩).pixel 0 0 = (128, 128, 0, 255) :=
  (displacementMap2D_sentinel Rat.sqrt ⟨4, 4, 2, 2, 0, 0, 1, [0]⟩
    (by norm_num) (by norm_num) (by norm_num) (by norm_num) 0 0
    (by norm_num) (by norm_num)
    (Or.inl (by simp only [inObjectRegion]; omega))).2.2

/-- Parameters of _calculateSpecularHighlight, source line 390.  The
bezelWidth argument is accepted but unused by the body; the light direction
[Math.cos angle, Math.sin angle] of line 393 is passed as the two rational
components lightX and lightY.  The refraction table is not a parameter: the
highlight depends on geometry only. -/
structure SpecParams where
  objectWidth : ℕ
  objectHeight : ℕ
  radius : ℚ
  bezelWidth : ℚ

/-- Source lines 404-434: the body of the specular loop for object pixel
(x1, y1): none when the pixel fails the 1.5 pixel edge band test, and the
stored RGBA quadruple otherwise. -/
def specPixelWrite (sq : ℚ → ℚ) (lightX lightY : ℚ) (sp : SpecParams)
    (x1 y1 : ℕ) : Option Rgba :=
  let xy := cornerOffset sp.objectWidth sp.objectHeight sp.radius x1 y1
  let x := xy.1
  let y := xy.2
  let specularThickness : ℚ := 3 / 2
  let radiusSquared := sp.radius * sp.radius
  let radiusPlusOneSquared := (sp.radius + 1) * (sp.radius + 1)
  let radiusMinusSpecularSquared :=
    max 0 ((sp.radius - specularThickness) * (sp.radius - specularThickness))
  let distanceToCenterSquared := x * x + y * y
  if distanceToCenterSquared ≤ radiusPlusOneSquared ∧
      distanceToCenterSquared ≥ radiusMinusSpecularSquared then
    let distanceFromCenter := sq distanceToCenterSquared
    let distanceFromSide := sp.radius - distanceFromCenter
    let opacity :=
      if distanceToCenterSquared < radiusSquared then 1
      else 1 - (distanceFromCenter - sq radiusSquared) /
        (sq radiusPlusOneSquared - sq radiusSquared)
    let cosv := if distanceFromCenter > 0 then x / distanceFromCenter else 0
    let sinv := if distanceFromCenter > 0 then -y / distanceFromCenter else 0
    let dotProduct := |cosv * lightX + sinv * lightY|
    let edgeRatio := max 0 (min 1 (distanceFromSide / specularThickness))
    let sharpFalloff := sq (1 - (1 - edgeRatio) * (1 - edgeRatio))
    let coefficient := dotProduct * sharpFalloff
    let color := min 255 (255 * coefficient)
    let finalOpacity := min 255 (color * coefficient * opacity)
    some (color, color, color, finalOpacity)
  else none

/-- Source lines 390-438: the specular rasterizer, sized to the object; a
fresh ImageData starts as all zeros and only edge-band pixels are written. -/
def calculateSpecularHighlight (sq : ℚ → ℚ) (lightX lightY : ℚ)
    (sp : SpecParams) : ImageDataQ :=
  { width := sp.objectWidth
    height := sp.objectHeight
    data := rasterFold (specPixelWrite sq lightX lightY sp)
      (fun y1 x1 => ((y1 * sp.objectWidth + x1 : ℕ) : ℚ))
      ((List.range sp.objectHeight) ×ˢ (List.range sp.objectWidth))
      (fun _ => (0, 0, 0, 0)) }

/-- The value the C6 claim prescribes for a qualifying specular edge pixel,
written from the words of the specification: (cos, sin) is the corner-relative
outward unit direction in the y-up light frame, edgeRatio clamps the
band-relative depth, sharpFalloff is sqrt of 1 - (1 - edgeRatio)^2, the
coefficient multiplies the absolute dot product with it, the color channel is
min(255, 255 coefficient) and the alpha channel is min(255, brightness *
coefficient * opacity). -/
def claimSpecularValue (sq : ℚ → ℚ) (lightX lightY : ℚ) (sp : SpecParams)
    (x1 y1 : ℕ) : Rgba :=
  let x := (cornerOffset sp.objectWidth sp.objectHeight sp.radius x1 y1).1
  let y := (cornerOffset sp.objectWidth sp.objectHeight sp.radius x1 y1).2
  let distanceFromCenter := sq (x * x + y * y)
  let opacity :=
    if x * x + y * y < sp.radius * sp.radius then 1
    else 1 - (distanceFromCenter - sq (sp.radius * sp.radius)) /
      (sq ((sp.radius + 1) * (sp.radius + 1)) - sq (sp.radius * sp.radius))
  let cosv := if 0 < distanceFromCenter then x / distanceFromCenter else 0
  let sinv := if 0 < distanceFromCenter then -y / distanceFromCenter else 0
  let dotProduct := |cosv * lightX + sinv * lightY|
  let edgeRatio := max 0 (min 1 ((sp.radius - distanceFromCenter) / (3 / 2)))
  let sharpFalloff := sq (1 - (1 - edgeRatio) * (1 - edgeRatio))
  let coefficient := dotProduct * sharpFalloff
  let brightness := min 255 (255 * coefficient)
  (brightness, brightness, brightness,
    min 255 (brightness * coefficient * opacity))

/-- C6: for every object pixel that passes the 1.5 pixel specular band test,
the buffer produced by the specular rasterizer holds exactly the value the
claim prescribes; the rasterizer takes no refraction table at all, so the
result never depends on one. -/
theorem specularHighlight_pixel_formula (sq : ℚ → ℚ) (lightX lightY : ℚ)
    (sp : SpecParams) (x1 y1 : ℕ)
    (hx1 : x1 < sp.objectWidth) (hy1 : y1 < sp.objectHeight)
    (hband :
      let xy := cornerOffset sp.objectWidth sp.objectHeight sp.radius x1 y1
      xy.1 * xy.1 + xy.2 * xy.2 ≤ (sp.radius + 1) * (sp.radius + 1) ∧
      xy.1 * xy.1 + xy.2 * xy.2 ≥
        max 0 ((sp.radius - 3 / 2) * (sp.radius - 3 / 2))) :
    (calculateSpecularHighlight sq lightX lightY sp).pixel x1 y1 =
      claimSpecularValue sq lightX lightY sp x1 y1 := by
  have hpix : (calculateSpecularHighlight sq lightX lightY sp).pixel x1 y1 =
      rasterFold (specPixelWrite sq lightX lightY sp)
        (fun y1 x1 => ((y1 * sp.objectWidth + x1 : ℕ) : ℚ))
        ((List.range sp.objectHeight) ×ˢ (List.range sp.objectWidth))
        (fun _ => (0, 0, 0, 0)) ((y1 * sp.objectWidth + x1 : ℕ) : ℚ) := rfl
  rw [hpix]
  have hv : specPixelWrite sq lightX lightY sp x1 y1 =
      some (claimSpecularValue sq lightX lightY sp x1 y1) := by
    simp only [specPixelWrite]
    rw [if_pos hband]
    rfl
  apply rasterFold_writer (a := (y1, x1))
    (v := claimSpecularValue sq lightX lightY sp x1 y1)
  · exact List.mem_product.2 ⟨List.mem_range.2 hy1, List.mem_range.2 hx1⟩
  · exact List.Nodup.product (List.nodup_range _) (List.nodup_range _)
  · rintro ⟨ry, rx⟩ hb hbq
    rw [List.mem_product, List.mem_range, List.mem_range] at hb
    have hnat : ry * sp.objectWidth + rx = y1 * sp.objectWidth + x1 :=
      Nat.cast_inj.1 hbq
    obtain ⟨hr, hc⟩ := rowcol_unique hb.2 hx1 hnat
    simp [hr, hc]
  · exact hv
  · rfl

/-- C6 witness: a 2 by 2 object of corner radius 1; the pixel at (0, 0) has
corner-local offset (-1, -1), squared distance 2 inside the band bounds
[1/4, 4], and the buffer holds the prescribed value there. -/
theorem specularHighlight_pixel_formula_witness :
    (calculateSpecularHighlight Rat.sqrt (1 / 2) (7 / 8)
        ⟨2, 2, 1, 0⟩).pixel 0 0 =
      claimSpecularValue Rat.sqrt (1 / 2) (7 / 8) ⟨2, 2, 1, 0⟩ 0 0 :=
  specularHighlight_pixel_formula Rat.sqrt (1 / 2) (7 / 8) ⟨2, 2, 1, 0⟩ 0 0
    (by norm_num) (by norm_num)
    (by norm_num [cornerOffset])

/-- The eight named springs of an instance, source lines 140-149. -/
structure SpringSet where
  scale : Spring
  scaleX : Spring
  scaleY : Spring
  shadowOffsetX : Spring
  shadowOffsetY : Spring
  shadowBlur : Spring
  shadowAlpha : Spring
  refractionBoost : Spring

/-- Source lines 714-720: the loop over the spring table, settled only when
every one of the eight springs is settled. -/
def allSpringsSettled (s : SpringSet) : Bool :=
  s.scale.isSettled && s.scaleX.isSettled && s.scaleY.isSettled &&
    s.shadowOffsetX.isSettled && s.shadowOffsetY.isSettled &&
    s.shadowBlur.isSettled && s.shadowAlpha.isSettled &&
    s.refractionBoost.isSettled

/-- The driver state read and written by one animation tick: the drag flag,
the residual pointer velocity estimate, and the springs. -/
structure DriverState where
  isDragging : Bool
  velocityX : ℚ
  velocityY : ℚ
  springs : SpringSet

/-- Source lines 647-728: one pass of _animationLoop.  The clamped frame
delta of line 649 is the constant min(0.032, 1/60); targets are set from the
interaction mode, the squish rule adjusts the scaleX/scaleY targets, all
eight springs step, residual velocity decays by the factor 0.95 while not
dragging, and the returned boolean says whether requestAnimationFrame is
called again (lines 723-727); false means the driver goes Idle.  The DOM and
filter-attribute side effects of lines 695-707 mutate no driver state and are
not part of the model. -/
def animationTick (sq : ℚ → ℚ) (st : DriverState) : DriverState × Bool :=
  let dt : ℚ := min (32 / 1000) (1 / 60)
  let s0 := st.springs
  let s1 :=
    if st.isDragging then
      { s0 with
        scale := s0.scale.setTarget 1
        shadowOffsetX := s0.shadowOffsetX.setTarget 4
        shadowOffsetY := s0.shadowOffsetY.setTarget 16
        shadowBlur := s0.shadowBlur.setTarget 24
        shadowAlpha := s0.shadowAlpha.setTarget (22 / 100)
        refractionBoost := s0.refractionBoost.setTarget 1 }
    else
      { s0 with
        scale := s0.scale.setTarget (85 / 100)
        shadowOffsetX := s0.shadowOffsetX.setTarget 0
        shadowOffsetY := s0.shadowOffsetY.setTarget 4
        shadowBlur := s0.shadowBlur.setTarget 12
        shadowAlpha := s0.shadowAlpha.setTarget (15 / 100)
        refractionBoost := s0.refractionBoost.setTarget (8 / 10) }
  let velocityMagnitude :=
    sq (st.velocityX * st.velocityX + st.velocityY * st.velocityY)
  let squishAmount := min (15 / 100) (velocityMagnitude / 3000)
  let s2 :=
    if velocityMagnitude > 50 then
      let vxNorm := st.velocityX / velocityMagnitude
      let vyNorm := st.velocityY / velocityMagnitude
      { s1 with
        scaleX := s1.scaleX.setTarget
          (1 + squishAmount * |vxNorm| - squishAmount * (1 / 2) * |vyNorm|)
        scaleY := s1.scaleY.setTarget
          (1 + squishAmount * |vyNorm| - squishAmount * (1 / 2) * |vxNorm|) }
    else
      { s1 with
        scaleX := s1.scaleX.setTarget 1
        scaleY := s1.scaleY.setTarget 1 }
  let s3 : SpringSet :=
    { scale := s2.scale.update dt
      scaleX := s2.scaleX.update dt
      scaleY := s2.scaleY.update dt
      shadowOffsetX := s2.shadowOffsetX.update dt
      shadowOffsetY := s2.shadowOffsetY.update dt
      shadowBlur := s2.shadowBlur.update dt
      shadowAlpha := s2.shadowAlpha.update dt
      refractionBoost := s2.refractionBoost.update dt }
  let vx := if st.isDragging then st.velocityX else st.velocityX * (95 / 100)
  let vy := if st.isDragging then st.velocityY else st.velocityY * (95 / 100)
  let settled := allSpringsSettled s3 && decide (|vx| < 1) && decide (|vy| < 1)
  ({ isDragging := st.isDragging, velocityX := vx, velocityY := vy,
     springs := s3 }, !settled)

/-- C8: after one tick the six mode-driven targets equal the mode table
values (dragging: 1.0, 4, 16, 24, 0.22, 1.0; idle: 0.85, 0, 4, 12, 0.15,
0.8), and the scaleX/scaleY targets follow the squish rule with squish =
min(0.15, velocityMagnitude/3000): anisotropic when the magnitude exceeds 50
and 1 otherwise.  Spring updates preserve targets, so the targets observed
after the tick are exactly those set by the mode table. -/
theorem animationTick_targets (sq : ℚ → ℚ) (st : DriverState) :
    (animationTick sq st).1.springs.scale.target =
      (if st.isDragging then 1 else 85 / 100) ∧
    (animationTick sq st).1.springs.shadowOffsetX.target =
      (if st.isDragging then 4 else 0) ∧
    (animationTick sq st).1.springs.shadowOffsetY.target =
      (if st.isDragging then 16 else 4) ∧
    (animationTick sq st).1.springs.shadowBlur.target =
      (if st.isDragging then 24 else 12) ∧
    (animationTick sq st).1.springs.shadowAlpha.target =
      (if st.isDragging then 22 / 100 else 15 / 100) ∧
    (animationTick sq st).1.springs.refractionBoost.target =
      (if st.isDragging then 1 else 8 / 10) ∧
    (animationTick sq st).1.springs.scaleX.target =
      (if sq (st.velocityX * st.velocityX + st.velocityY * st.velocityY) > 50
       then 1 +
          min (15 / 100)
            (sq (st.velocityX * st.velocityX + st.velocityY * st.velocityY) / 3000) *
            |st.velocityX / sq (st.velocityX * st.velocityX + st.velocityY * st.velocityY)| -
          1 / 2 *
            min (15 / 100)
              (sq (st.velocityX * st.velocityX + st.velocityY * st.velocityY) / 3000) *
            |st.velocityY / sq (st.velocityX * st.velocityX + st.velocityY * st.velocityY)|
       else 1) ∧
    (animationTick sq st).1.springs.scaleY.target =
      (if sq (st.velocityX * st.velocityX + st.velocityY * st.velocityY) > 50
       then 1 +
          min (15 / 100)
            (sq (st.velocityX * st.velocityX + st.velocityY * st.velocityY) / 3000) *
            |st.velocityY / sq (st.velocityX * st.velocityX + st.velocityY * st.velocityY)| -
          1 / 2 *
            min (15 / 100)
              (sq (st.velocityX * st.velocityX + st.velocityY * st.velocityY) / 3000) *
            |st.velocityX / sq (st.velocityX * st.velocityX + st.velocityY * st.velocityY)|
       else 1) := by
  dsimp only [animationTick]
  split_ifs <;>
    dsimp only [Spring.update, Spring.setTarget] <;>
    refine ⟨rfl, rfl, rfl, rfl, rfl, rfl, ?_, ?_⟩ <;>
    ring

/-- C9: one tick multiplies both residual velocity components by 0.95 exactly
when not dragging, and the driver stops rescheduling (returns to Idle) exactly
when, at the end of the tick, all eight springs are settled and both decayed
velocity components are below 1 in absolute value. -/
theorem animationTick_decay_and_idle (sq : ℚ → ℚ) (st : DriverState) :
    (animationTick sq st).1.velocityX =
      (if st.isDragging then st.velocityX else st.velocityX * (95 / 100)) ∧
    (animationTick sq st).1.velocityY =
      (if st.isDragging then st.velocityY else st.velocityY * (95 / 100)) ∧
    ((animationTick sq st).2 = false ↔
      allSpringsSettled (animationTick sq st).1.springs = true ∧
      |(animationTick sq st).1.velocityX| < 1 ∧
      |(animationTick sq st).1.velocityY| < 1) := by
  refine ⟨rfl, rfl, ?_⟩
  simp [animationTick, Bool.and_eq_true, decide_eq_true_iff, and_assoc]

/-- Evaluation of the rational square root at 2 (the floor value 1). -/
lemma ratSqrt_two : Rat.sqrt 2 = 1 := by
  simp [Rat.sqrt]
  norm_num

/-- Evaluation of the rational square root at 4. -/
lemma ratSqrt_four : Rat.sqrt 4 = 2 := by
  simp [Rat.sqrt]
  norm_num

/-- C5 counterexample: with canvas 4 by 3, object 2 by 2, corner radius 1,
bezel width 1, maximum displacement 1 and table [1], the height difference is
odd, so the centering offset objectY = 1/2 is fractional; the write of object
pixel (0, 0) nevertheless lands at the whole pixel index (1/2)·4 + 1 = 3
(byte index 12), which is canvas pixel (3, 0) — outside the centered object
region — and that pixel holds (255, 255, 0, 255) instead of the neutral
sentinel, refuting the claim as stated for arbitrary geometry.  The model is
evaluated at the rational square root; the landing index and the failure of
the sentinel do not depend on the square-root values, which only scale the
written channels. -/
theorem displacementMap2D_offcenter_counterexample :
    ¬ inObjectRegion ⟨4, 3, 2, 2, 1, 1, 1, [1]⟩ 3 0 ∧
    (calculateDisplacementMap2D Rat.sqrt ⟨4, 3, 2, 2, 1, 1, 1, [1]⟩).pixel 3 0 =
      (255, 255, 0, 255) ∧
    (calculateDisplacementMap2D Rat.sqrt ⟨4, 3, 2, 2, 1, 1, 1, [1]⟩).pixel 3 0 ≠
      (128, 128, 0, 255) := by
  have hval : (calculateDisplacementMap2D Rat.sqrt
      ⟨4, 3, 2, 2, 1, 1, 1, [1]⟩).pixel 3 0 = (255, 255, 0, 255) := by
    have hpix : (calculateDisplacementMap2D Rat.sqrt
        ⟨4, 3, 2, 2, 1, 1, 1, [1]⟩).pixel 3 0 =
        rasterFold (dispPixelWrite Rat.sqrt ⟨4, 3, 2, 2, 1, 1, 1, [1]⟩)
          (fun y1 x1 => (((3 : ℚ) - (2 : ℚ)) / 2 + (y1 : ℚ)) * (4 : ℚ) +
            ((4 : ℚ) - (2 : ℚ)) / 2 + (x1 : ℚ))
          ((List.range 2) ×ˢ (List.range 2))
          (fun _ => (128, 128, 0, 255)) ((0 * 4 + 3 : ℕ) : ℚ) := rfl
    have hcast : ((0 * 4 + 3 : ℕ) : ℚ) = 3 := by norm_num
    rw [hpix, hcast]
    refine rasterFold_writer _ _ _ _ _ (0, 0) ((255 : ℚ), (255 : ℚ), (0 : ℚ), (255 : ℚ))
      ?_ ?_ ?_ ?_ ?_
    · decide
    · decide
    · rintro ⟨ry, rx⟩ hb hbq
      fin_cases hb
      · rfl
      · exfalso; norm_num at hbq
      · exfalso; norm_num at hbq
      · exfalso; norm_num at hbq
    · norm_num [dispPixelWrite, cornerOffset, jsTableLookup, clampByte,
        ratSqrt_zero, ratSqrt_one, ratSqrt_two, ratSqrt_four]
    · norm_num
  exact ⟨by decide, hval, by rw [hval]; norm_num⟩
